import Mathlib

/-!
Verification development for the nydus test framework's daemon lifecycle
driver (`contrib/nydus-test/framework/rafs.py`).

The Python source is shallowly embedded: the mutable objects (`RafsConf`,
`RafsImage`, `NydusDaemon`) become Lean structures with explicit state
passing, Python exceptions become an error type threaded through
`Except` / `Option`, the filesystem and remote blob store become explicit
sets of paths, and the blocking readiness-poll loop becomes a
fuel-indexed recursion.
-/

namespace Nydus

/-- Kinds of Python exceptions that the embedded code can raise.  The
spec's error taxonomy maps onto these: `ConfigError` is an
`attributeError` raised while building a configuration, `BuildError` is
an `assertionError` / JSON error raised inside `create_image`. -/
inductive PyErr
  | attributeError
  | fileNotFoundError
  | keyError
  | indexError
  | typeError
  | jsonDecodeError
  | assertionError
  deriving DecidableEq, Repr

/-- Backend variants, from `class Backend(enum.Enum)` (rafs.py:31). -/
inductive Backend
  | oss
  | registry
  | localfs
  | backend_proxy
  deriving DecidableEq, Repr

/-- `str(backend)` returns the enum value (rafs.py:37). -/
def Backend.str : Backend → String
  | Backend.oss => "oss"
  | Backend.registry => "registry"
  | Backend.localfs => "localfs"
  | Backend.backend_proxy => "backend_proxy"

/-- JSON values, for the builder's `--output-json` document and for the
serialized runtime configuration document. -/
inductive JVal
  | str (s : String)
  | bool (b : Bool)
  | num (n : Nat)
  | arr (xs : List JVal)
  | obj (fields : List (String × JVal))

/-- Python `d[k]` on a parsed JSON value: `KeyError` when the key is
absent, `TypeError` when the value is not an object. -/
def jGet (j : JVal) (k : String) : Except PyErr JVal :=
  match j with
  | JVal.obj fields =>
    match fields.lookup k with
    | some v => Except.ok v
    | none => Except.error PyErr.keyError
  | _ => Except.error PyErr.typeError

/-- Python `l[-1]` on a parsed JSON value: `IndexError` when the list is
empty, `TypeError` when the value is not a list. -/
def jLast (j : JVal) : Except PyErr JVal :=
  match j with
  | JVal.arr xs =>
    match xs.getLast? with
    | some v => Except.ok v
    | none => Except.error PyErr.indexError
  | _ => Except.error PyErr.typeError

/-- Modelled from the spec: `NydusAnchor` (`nydus_anchor.py`, not under
src/) is the "global anchor/context object threaded through every
component (directories, URLs, credentials, process registries)".  The
backend credential fields may be absent on a concrete anchor (they are
only needed by the matching variant), so they are `Option`; reading an
absent attribute raises `AttributeError`.  Infrastructure fields
(work directories, binaries, the metadata format version) are always
present. -/
structure NydusAnchor where
  registry_url : Option String
  registry_auth : Option String
  registry_namespace : Option String
  oss_endpoint : Option String
  oss_ak_id : Option String
  oss_ak_secret : Option String
  oss_bucket : Option String
  ossutil_bin : Option String
  backend_proxy_url : Option String
  localfs_workdir : Option String
  blobcache_dir : String
  backend_proxy_blobs_dir : String
  image_bin : String
  log_level : String
  workspace : String
  mountpoint : String
  fs_version : Nat
  deriving DecidableEq, Repr

/-- Python attribute read of a possibly-absent attribute: raises
`AttributeError` when the attribute is not set. -/
def attr {α : Type} (o : Option α) : Except PyErr α :=
  match o with
  | some v => Except.ok v
  | none => Except.error PyErr.attributeError

/-- Whether a path string is absolute (begins with the separator). -/
def isAbsolute (p : String) : Bool :=
  match p.data with
  | '/' :: _ => true
  | _ => false

/-- Whether a path string already ends with the separator. -/
def endsWithSlash (a : String) : Bool :=
  match a.data.getLast? with
  | some '/' => true
  | _ => false

/-- `posixpath.join a b` for two components: an absolute second
component replaces the first, otherwise the parts are joined with a
single separator. -/
def posixJoin (a b : String) : String :=
  if isAbsolute b then b
  else if a = "" then b
  else if endsWithSlash a then a ++ b
  else a ++ "/" ++ b

/-- The dynamically-populated `device.backend.config` namespace.  Every
attribute ever written by `set_rafs_backend` is a field; `none` models
"attribute not set". -/
structure BackendCfg where
  scheme : Option String := none
  host : Option String := none
  auth : Option String := none
  repo : Option String := none
  endpoint : Option String := none
  access_key_id : Option String := none
  access_key_secret : Option String := none
  bucket_name : Option String := none
  object_pfx : Option String := none
  blob_file : Option String := none
  dir : Option String := none
  deriving DecidableEq, Repr

/-- `device.backend` of the runtime configuration. -/
structure BackendObj where
  type : String
  config : BackendCfg
  deriving DecidableEq, Repr

/-- `device.cache`, written by `enable_rafs_blobcache` (rafs.py:182). -/
structure CacheConf where
  type : String
  work_dir : String
  compressed : Bool
  deriving DecidableEq, Repr

/-- `fs_prefetch` section of the runtime configuration. -/
structure PrefetchConf where
  enable : Bool
  threads_count : Option Nat := none
  merging_size : Option Nat := none
  bandwidth_rate : Option Nat := none
  prefetch_all : Option Bool := none
  deriving DecidableEq, Repr

/-- `device` section: backend plus the optional cache overlay. -/
structure DeviceConf where
  backend : BackendObj
  cache : Option CacheConf := none
  deriving DecidableEq, Repr

/-- State of a `RafsConf` object (`self._device_conf` plus the anchor
reference).  Top-level optional fields model attributes that the
`enable_*` setters create dynamically. -/
structure RafsConfState where
  anchor : NydusAnchor
  device : DeviceConf
  mode : String
  iostats_files : Bool
  latest_read_files : Option Bool := none
  access_pattern : Option Bool := none
  fs_prefetch : PrefetchConf
  digest_validate : Option Bool := none
  amplify_io : Option Nat := none
  enable_xattr : Option Bool := none
  deriving DecidableEq, Repr

/-- `RafsConf.__init__` (rafs.py:71): the default configuration has an
`oss` backend with an empty config, mode from `PREFERRED_MODE` (default
"direct"), iostats off and prefetch disabled. -/
def rafsConfInit (a : NydusAnchor) (preferred_mode : Option String) : RafsConfState :=
  { anchor := a
    device := { backend := { type := "oss", config := {} } }
    mode := preferred_mode.getD "direct"
    iostats_files := false
    fs_prefetch := { enable := false } }

/-- Update the `device.backend.config` namespace in place. -/
def updCfg (c : RafsConfState) (f : BackendCfg → BackendCfg) : RafsConfState :=
  { c with device := { c.device with backend := { c.device.backend with config := f c.device.backend.config } } }

/-- Update `device.backend.type` in place. -/
def setBackendTypeField (c : RafsConfState) (t : String) : RafsConfState :=
  { c with device := { c.device with backend := { c.device.backend with type := t } } }

/-- Keyword arguments accepted by `RafsConf.set_rafs_backend`.
`image_blob_file` models `kwargs["image"].localfs_backing_blob`, an
attribute that exists only after a localfs build. -/
structure RafsKwargs where
  repo : Option String := none
  scheme : Option String := none
  pfx : Option String := none
  image : Option (Option String) := none
  deriving DecidableEq, Repr

/-- `RafsConf.set_rafs_backend` (rafs.py:98-159).  The backend type is
first set to `str(backend_type)`; the `BACKEND_PROXY` branch then
overwrites it with "registry".  Each `self.anchor.<field>` read raises
`AttributeError` when the field is absent. -/
def setRafsBackend (c : RafsConfState) (bt : Backend) (kw : RafsKwargs) : Except PyErr RafsConfState :=
  let c0 := setBackendTypeField c bt.str
  match bt with
  | Backend.registry =>
    let step1 : Except PyErr RafsConfState :=
      match kw.repo with
      | none => Except.ok c0
      | some r =>
        match c0.anchor.registry_namespace with
        | none => Except.error PyErr.attributeError
        | some ns => Except.ok (updCfg c0 (fun g => { g with repo := some (posixJoin ns r) }))
    match step1 with
    | Except.error e => Except.error e
    | Except.ok c1 =>
      let c2 := updCfg c1 (fun g => { g with scheme := some (kw.scheme.getD "http") })
      match c2.anchor.registry_url with
      | none => Except.error PyErr.attributeError
      | some host =>
        let c3 := updCfg c2 (fun g => { g with host := some host })
        match c3.anchor.registry_auth with
        | none => Except.error PyErr.attributeError
        | some auth => Except.ok (updCfg c3 (fun g => { g with auth := some auth }))
  | Backend.oss =>
    let c1 :=
      match kw.pfx with
      | some p => updCfg c0 (fun g => { g with object_pfx := some p })
      | none => c0
    match c1.anchor.oss_endpoint with
    | none => Except.error PyErr.attributeError
    | some ep =>
      let c2 := updCfg c1 (fun g => { g with endpoint := some ep })
      match c2.anchor.oss_ak_id with
      | none => Except.error PyErr.attributeError
      | some ak =>
        let c3 := updCfg c2 (fun g => { g with access_key_id := some ak })
        match c3.anchor.oss_ak_secret with
        | none => Except.error PyErr.attributeError
        | some sk =>
          let c4 := updCfg c3 (fun g => { g with access_key_secret := some sk })
          match c4.anchor.oss_bucket with
          | none => Except.error PyErr.attributeError
          | some bkt => Except.ok (updCfg c4 (fun g => { g with bucket_name := some bkt }))
  | Backend.backend_proxy =>
    let c1 := setBackendTypeField c0 "registry"
    let c2 := updCfg c1 (fun g => { g with scheme := some "http" })
    let c3 := updCfg c2 (fun g => { g with repo := some "nydus" })
    match c3.anchor.backend_proxy_url with
    | none => Except.error PyErr.attributeError
    | some host => Except.ok (updCfg c3 (fun g => { g with host := some host }))
  | Backend.localfs =>
    match kw.image with
    | some img =>
      match img with
      | none => Except.error PyErr.attributeError
      | some bf => Except.ok (updCfg c0 (fun g => { g with blob_file := some bf }))
    | none =>
      match c0.anchor.localfs_workdir with
      | none => Except.error PyErr.attributeError
      | some d => Except.ok (updCfg c0 (fun g => { g with dir := some d }))

/-- `RafsConf.enable_rafs_blobcache` (rafs.py:182-191): overwrites
`device.cache` with a blobcache entry whose work dir defaults to
`anchor.blobcache_dir`. -/
def enableRafsBlobcache (c : RafsConfState) (is_compressed : Bool) (work_dir : Option String) : RafsConfState :=
  { c with device := { c.device with cache := some (CacheConf.mk "blobcache" (work_dir.getD c.anchor.blobcache_dir) is_compressed) } }

/-- The persisted configuration file (`self.__conf_file_wrapper`): its
character contents and the current position. -/
structure ConfFile where
  contents : List Char
  pos : Nat
  deriving DecidableEq, Repr

/-- `file.truncate(n)`: drop contents beyond `n`; the position is not
moved. -/
def fileTruncate (f : ConfFile) (n : Nat) : ConfFile :=
  { f with contents := f.contents.take n }

/-- `file.seek(n)`. -/
def fileSeek (f : ConfFile) (n : Nat) : ConfFile :=
  { f with pos := n }

/-- `file.write(s)` at the current position, overwriting forward. -/
def fileWrite (f : ConfFile) (s : String) : ConfFile :=
  { contents := f.contents.take f.pos ++ s.data, pos := f.pos + s.length }

/-- Helper: a JSON object field that is present only when the
corresponding attribute was set. -/
def optField (k : String) (v : Option JVal) : List (String × JVal) :=
  match v with
  | some j => [(k, j)]
  | none => []

/-- The `device.backend.config` sub-document. -/
def backendCfgToJVal (b : BackendCfg) : JVal :=
  JVal.obj
    (optField "scheme" (b.scheme.map JVal.str) ++
     optField "host" (b.host.map JVal.str) ++
     optField "auth" (b.auth.map JVal.str) ++
     optField "repo" (b.repo.map JVal.str) ++
     optField "endpoint" (b.endpoint.map JVal.str) ++
     optField "access_key_id" (b.access_key_id.map JVal.str) ++
     optField "access_key_secret" (b.access_key_secret.map JVal.str) ++
     optField "bucket_name" (b.bucket_name.map JVal.str) ++
     optField "object_prefix" (b.object_pfx.map JVal.str) ++
     optField "blob_file" (b.blob_file.map JVal.str) ++
     optField "dir" (b.dir.map JVal.str))

/-- The `device.cache` sub-document. -/
def cacheToJVal (cc : CacheConf) : JVal :=
  JVal.obj
    [("type", JVal.str cc.type),
     ("config", JVal.obj [("work_dir", JVal.str cc.work_dir)]),
     ("compressed", JVal.bool cc.compressed)]

/-- The `fs_prefetch` sub-document. -/
def prefetchToJVal (p : PrefetchConf) : JVal :=
  JVal.obj
    ([("enable", JVal.bool p.enable)] ++
     optField "threads_count" (p.threads_count.map JVal.num) ++
     optField "merging_size" (p.merging_size.map JVal.num) ++
     optField "bandwidth_rate" (p.bandwidth_rate.map JVal.num) ++
     optField "prefetch_all" (p.prefetch_all.map JVal.bool))

/-- The JSON document produced from a `RafsConf` state
(`utils.object_to_dict` of the namespace tree, rafs.py:236). -/
def confToJVal (c : RafsConfState) : JVal :=
  JVal.obj
    ([("device", JVal.obj
        ([("backend", JVal.obj
            [("type", JVal.str c.device.backend.type),
             ("config", backendCfgToJVal c.device.backend.config)])] ++
         optField "cache" (c.device.cache.map cacheToJVal)))] ++
     [("mode", JVal.str c.mode),
      ("iostats_files", JVal.bool c.iostats_files)] ++
     optField "latest_read_files" (c.latest_read_files.map JVal.bool) ++
     optField "access_pattern" (c.access_pattern.map JVal.bool) ++
     [("fs_prefetch", prefetchToJVal c.fs_prefetch)] ++
     optField "digest_validate" (c.digest_validate.map JVal.bool) ++
     optField "amplify_io" (c.amplify_io.map JVal.num) ++
     optField "enable_xattr" (c.enable_xattr.map JVal.bool))

mutual

/-- Deterministic rendering of a JSON value, as `json.dump` writes it. -/
def jvalToString : JVal → String
  | JVal.str s => "\x22" ++ s ++ "\x22"
  | JVal.bool b => if b then "true" else "false"
  | JVal.num n => toString n
  | JVal.arr xs => "[" ++ jarrToString xs ++ "]"
  | JVal.obj fs => "\x7b" ++ jobjToString fs ++ "\x7d"

/-- Render a JSON array body. -/
def jarrToString : List JVal → String
  | [] => ""
  | [x] => jvalToString x
  | x :: y :: xs => jvalToString x ++ ", " ++ jarrToString (y :: xs)

/-- Render a JSON object body. -/
def jobjToString : List (String × JVal) → String
  | [] => ""
  | [(k, v)] => "\x22" ++ k ++ "\x22: " ++ jvalToString v
  | (k, v) :: y :: xs => "\x22" ++ k ++ "\x22: " ++ jvalToString v ++ ", " ++ jobjToString (y :: xs)

end

/-- The byte string `json.dump` writes for a configuration state. -/
def serializeConf (c : RafsConfState) : String :=
  jvalToString (confToJVal c)

/-- The v6 upgrade step at the top of `dump_rafs_conf` (rafs.py:229-231):
when the metadata format major version is 6, `enable_rafs_blobcache()`
is invoked (with a logged warning) before the document is written. -/
def dumpUpgrade (c : RafsConfState) : RafsConfState :=
  if c.anchor.fs_version = 6 then enableRafsBlobcache c false none else c

/-- `RafsConf.dump_rafs_conf` (rafs.py:226-238): apply the v6 cache
upgrade, truncate the file to zero, seek to the start and write the
serialized document. -/
def dumpRafsConf (c : RafsConfState) (f : ConfFile) : RafsConfState × ConfFile :=
  let c1 := dumpUpgrade c
  (c1, fileWrite (fileSeek (fileTruncate f 0) 0) (serializeConf c1))

/-- `document["device"]["cache"]["type"]` of a serialized document. -/
def docCacheType (j : JVal) : Except PyErr JVal :=
  match jGet j "device" with
  | Except.error e => Except.error e
  | Except.ok d =>
    match jGet d "cache" with
    | Except.error e => Except.error e
    | Except.ok cc => jGet cc "type"

/-- `document["device"]["backend"]["type"]` of a serialized document. -/
def docBackendType (j : JVal) : Except PyErr JVal :=
  match jGet j "device" with
  | Except.error e => Except.error e
  | Except.ok d =>
    match jGet d "backend" with
    | Except.error e => Except.error e
    | Except.ok b => jGet b "type"

/-- Observable side effects on the operating system performed by the
image driver: directory creation, launching the external builder,
uploading or copying the produced blob and registering paths with the
teardown dustbin. -/
inductive Effect
  | ensureDir (path : String)
  | spawn (prog : String)
  | ossUpload (src : String) (key : JVal)
  | copyBlob (src : String) (dst : String)
  | putDustbin (path : String)

/-- The `OssHelper` handle constructed in `set_backend` (rafs.py:319). -/
structure OssHelperState where
  util_bin : String
  endpoint : String
  bucket : String
  ak_id : String
  ak_secret : String
  pfx : Option String
  deriving DecidableEq, Repr

/-- State of a `RafsImage` object.  `Option` fields model attributes
that are created dynamically (and are probed with `hasattr` during
cleanup): `oss_blob_abs_path`, `parent_blob` and `parent_bootstrap` are
never assigned anywhere in the class, `bootstrap_path` appears only
after a successful build, `localfs_backing_blob` only after a localfs
build and `oss_helper` only after `set_backend(OSS)`. -/
structure RafsImageState where
  anchor : NydusAnchor
  rootfs : String
  bootstrap_name : String
  blob_name : String
  blob_id : Option JVal
  test_dir : String
  clear_from_oss : Bool
  created : Bool
  compressor : Option String
  backend_type : Option Backend
  blob_abs_path : String
  oss_uploader : Option String
  oss_helper : Option OssHelperState
  parent_image : Option String
  bootstrap_path : Option String
  localfs_backing_blob : Option String
  oss_blob_abs_path : Option String
  parent_blob : Option String
  parent_bootstrap : Option String
  params : List (String × String)
  flags : List String

/-- `RafsImage.__init__` (rafs.py:242-291).  The tempfile-generated
names (`bootstrap_name`, `blob_name`, `blob_abs_path`) and the working
directory (`os.getcwd()`) are supplied by the caller. -/
def rafsImageInit (a : NydusAnchor) (source bootstrap_name blob_name : String)
    (compressor : Option String) (clear_from_oss : Bool)
    (blob_abs_path test_dir : String) : RafsImageState :=
  { anchor := a
    rootfs := source
    bootstrap_name := bootstrap_name
    blob_name := blob_name
    blob_id := none
    test_dir := test_dir
    clear_from_oss := clear_from_oss
    created := false
    compressor := compressor
    backend_type := none
    blob_abs_path := blob_abs_path
    oss_uploader := none
    oss_helper := none
    parent_image := none
    bootstrap_path := none
    localfs_backing_blob := none
    oss_blob_abs_path := none
    parent_blob := none
    parent_bootstrap := none
    params := []
    flags := [] }

/-- `LinuxCommand.set_param` (module `linux_command`, not under src/):
records a command-line key/value pair. -/
def setParam (s : RafsImageState) (k v : String) : RafsImageState :=
  { s with params := (k, v) :: s.params }

/-- `LinuxCommand.set_flags`: records a command-line flag. -/
def setFlag (s : RafsImageState) (k : String) : RafsImageState :=
  { s with flags := k :: s.flags }

/-- Keyword arguments of `RafsImage.set_backend`. -/
structure ImageKwargs where
  pfx : Option String := none
  deriving DecidableEq, Repr

/-- `RafsImage.set_backend` (rafs.py:308-334).  For `LOCALFS` the work
directory is created if absent; for `OSS` an `OssHelper` is constructed
from the anchor's oss credentials (each read can raise
`AttributeError`).  No process is launched here. -/
def setBackend (s : RafsImageState) (t : Backend) (kw : ImageKwargs) :
    Except PyErr RafsImageState × List Effect :=
  let s0 := { s with backend_type := some t }
  match t with
  | Backend.localfs =>
    match s0.anchor.localfs_workdir with
    | none => (Except.error PyErr.attributeError, [])
    | some wd => (Except.ok (setParam s0 "blob-dir" wd), [Effect.ensureDir wd])
  | Backend.oss =>
    let s1 := setParam s0 "blob" s0.blob_abs_path
    match s1.anchor.ossutil_bin with
    | none => (Except.error PyErr.attributeError, [])
    | some ub =>
      match s1.anchor.oss_endpoint with
      | none => (Except.error PyErr.attributeError, [])
      | some ep =>
        match s1.anchor.oss_bucket with
        | none => (Except.error PyErr.attributeError, [])
        | some bkt =>
          match s1.anchor.oss_ak_id with
          | none => (Except.error PyErr.attributeError, [])
          | some ak =>
            match s1.anchor.oss_ak_secret with
            | none => (Except.error PyErr.attributeError, [])
            | some sk =>
              (Except.ok { s1 with oss_helper := some (OssHelperState.mk ub ep bkt ak sk kw.pfx) }, [])
  | Backend.backend_proxy =>
    (Except.ok (setParam s0 "blob" s0.blob_abs_path), [])
  | Backend.registry =>
    (Except.ok (setParam s0 "blob" s0.blob_abs_path), [])

/-- `hex(chunk_size)` as a decorated string. -/
def hexStr (n : Nat) : String :=
  "0x" ++ String.mk (Nat.toDigits 16 n)

/-- `os.path.abspath` relative to the recorded working directory. -/
def absPath (cwd name : String) : String :=
  if isAbsolute name then name else cwd ++ "/" ++ name

/-- External inputs of one `create_image` run: the arguments, the
builder subprocess's exit status, whether the expected bootstrap file
exists afterwards, and the parsed content of the builder's
`--output-json` file (`none` = malformed JSON). -/
structure BuildEnv where
  clear_from_oss : Bool
  oss_uploader : String
  compressor : Option String
  parent_image : Option String
  prefetch_policy : Option String
  from_stargz : Bool
  fs_version_arg : Option String
  disable_check : Bool
  chunk_size : Option Nat
  image_bin : Option String
  returncode : Int
  bootstrapPresent : Bool
  outputDoc : Option JVal

/-- Result of `create_image`: the mutated object, the exception raised
(if any — mutations made before the raise persist), and the OS effects
performed. -/
structure CIResult where
  state : RafsImageState
  err : Option PyErr
  effects : List Effect

/-- The command-line-building segment of `create_image`
(rafs.py:360-398): parameters are recorded in source order. -/
def ciParams (s : RafsImageState) (env : BuildEnv) : RafsImageState :=
  let s1 := match env.prefetch_policy with
    | some pp => setParam s "prefetch-policy" pp
    | none => s
  let s2 := setParam s1 "log-level" s1.anchor.log_level
  let s3 := if env.disable_check then setFlag s2 "disable-check" else s2
  let s4 := match env.fs_version_arg with
    | some v => setParam s3 "fs-version" v
    | none => setParam s3 "fs-version" (toString s3.anchor.fs_version)
  let s5 := match s4.compressor with
    | some cp => setParam s4 "compressor" cp
    | none => s4
  let s6 := match env.chunk_size with
    | some n => setParam s5 "chunk-size" (hexStr n)
    | none => s5
  let s7 := setParam s6 "output-json" "output.json"
  let s8 := match s7.parent_image with
    | some pb => setParam s7 "parent-bootstrap" pb
    | none => s7
  if env.from_stargz then setParam s8 "source-type" "stargz_index" else s8

/-- `json.load(builder_output_json)["blobs"][-1]` (rafs.py:418):
malformed JSON raises `JSONDecodeError`, a missing "blobs" key raises
`KeyError`, an empty blob list raises `IndexError`. -/
def jloadBlobsLast (doc : Option JVal) : Except PyErr JVal :=
  match doc with
  | none => Except.error PyErr.jsonDecodeError
  | some j =>
    match jGet j "blobs" with
    | Except.error e => Except.error e
    | Except.ok bs => jLast bs

/-- The teardown registrations at the end of `create_image`
(rafs.py:436-446): the bootstrap and the intermediate blob always, the
localfs backing blob when it exists (the `AttributeError` of a missing
attribute is swallowed). -/
def dustbinEffects (s : RafsImageState) : List Effect :=
  [Effect.putDustbin s.bootstrap_name, Effect.putDustbin s.blob_abs_path] ++
    (match s.localfs_backing_blob with
     | some p => [Effect.putDustbin p]
     | none => [])

/-- The backend-specific blob persistence after a successful parse
(rafs.py:423-434), followed by the dustbin registrations. -/
def ciBackendFinish (s : RafsImageState) (spawnE : Effect) (bid : JVal) : CIResult :=
  match s.backend_type with
  | some Backend.oss =>
    if s.oss_uploader = some "util" then
      match s.oss_helper with
      | none => { state := s, err := some PyErr.attributeError, effects := [spawnE] }
      | some _ =>
        { state := s, err := none
          effects := [spawnE, Effect.ossUpload s.blob_abs_path bid] ++ dustbinEffects s }
    else { state := s, err := none, effects := [spawnE] ++ dustbinEffects s }
  | some Backend.backend_proxy =>
    match bid with
    | JVal.str bs =>
      { state := s, err := none
        effects := [spawnE, Effect.copyBlob s.blob_abs_path (s.anchor.backend_proxy_blobs_dir ++ "/" ++ bs)] ++ dustbinEffects s }
    | _ => { state := s, err := some PyErr.typeError, effects := [spawnE] }
  | some Backend.localfs =>
    match s.anchor.localfs_workdir with
    | none => { state := s, err := some PyErr.attributeError, effects := [spawnE] }
    | some wd =>
      match bid with
      | JVal.str bs =>
        let s1 := { s with localfs_backing_blob := some (wd ++ "/" ++ bs) }
        { state := s1, err := none, effects := [spawnE] ++ dustbinEffects s1 }
      | _ => { state := s, err := some PyErr.typeError, effects := [spawnE] }
  | _ => { state := s, err := none, effects := [spawnE] ++ dustbinEffects s }

/-- `RafsImage.create_image` (rafs.py:336-451): set the build
arguments, assert the uploader mode, launch the builder, assert a zero
exit status and the bootstrap's existence, mark the artifact created,
parse the output JSON for the last blob identifier, record the absolute
bootstrap path and persist the blob per backend. -/
def createImage (s : RafsImageState) (env : BuildEnv) : CIResult :=
  let s1 := { s with clear_from_oss := env.clear_from_oss
                     oss_uploader := some env.oss_uploader
                     compressor := env.compressor
                     parent_image := env.parent_image }
  if env.oss_uploader = "util" ∨ env.oss_uploader = "builder" ∨ env.oss_uploader = "none" then
    let s2 := ciParams s1 env
    let spawnE := Effect.spawn (env.image_bin.getD s2.anchor.image_bin)
    if env.returncode = 0 then
      if env.bootstrapPresent then
        let s3 := { s2 with created := true }
        match jloadBlobsLast env.outputDoc with
        | Except.error e => { state := s3, err := some e, effects := [spawnE] }
        | Except.ok bid =>
          let s4 := { s3 with blob_id := some bid }
          let s5 := { s4 with bootstrap_path := some (absPath s4.test_dir s4.bootstrap_name) }
          ciBackendFinish s5 spawnE bid
      else { state := s2, err := some PyErr.assertionError, effects := [spawnE] }
    else { state := s2, err := some PyErr.assertionError, effects := [spawnE] }
  else { state := s1, err := some PyErr.assertionError, effects := [] }

/-- `os.unlink`: removes the path, raising `FileNotFoundError` when it
is absent. -/
def osUnlink (fs : List String) (p : String) : Except PyErr (List String) :=
  if fs.contains p then Except.ok (fs.erase p) else Except.error PyErr.fileNotFoundError

/-- The parent-artifact block of `clean_up` (rafs.py:480-486): both
unlinks inside one `try`, `FileNotFoundError` and `AttributeError`
swallowed — an exception skips the rest of the block but keeps the
removals already made. -/
def cleanupParent (s : RafsImageState) (fs : List String) : List String :=
  match s.parent_blob with
  | none => fs
  | some pb =>
    if fs.contains pb then
      let fs1 := fs.erase pb
      match s.parent_bootstrap with
      | none => fs1
      | some pbs => fs1.erase pbs
    else fs

/-- Modelled from the spec: `OssHelper.rm` (`oss.py`, not under src/)
deletes the remote copy named by the blob's content identifier; remote
deletion during cleanup tolerates an already-deleted object (spec §7). -/
def ossRm (remote : List String) (key : Option JVal) : List String :=
  match key with
  | some (JVal.str k) => remote.erase k
  | _ => remote

/-- `RafsImage.clean_up` (rafs.py:457-492).  `hasattr` probes become
`Option` matches.  The bootstrap unlink (rafs.py:459-460) is NOT
wrapped in any exception handler; the later unlinks swallow
`FileNotFoundError` (erase-or-ignore) and `AttributeError`. -/
def cleanUp (s : RafsImageState) (fs : List String) (remote : List String) :
    Except PyErr (List String × List String) :=
  match (match s.bootstrap_path with
         | some p => osUnlink fs p
         | none => Except.ok fs) with
  | Except.error e => Except.error e
  | Except.ok fs1 =>
    match (match s.oss_blob_abs_path with
           | some _ => osUnlink fs1 s.blob_abs_path
           | none => Except.ok fs1) with
    | Except.error e => Except.error e
    | Except.ok fs2 =>
      let fs3 := match s.localfs_backing_blob with
        | some p => fs2.erase p
        | none => fs2
      let fs4 := fs3.erase s.blob_abs_path
      let fs5 := cleanupParent s fs4
      let remote1 :=
        if s.clear_from_oss ∧ s.backend_type = some Backend.oss then
          match s.oss_helper with
          | some _ => ossRm remote s.blob_id
          | none => remote
        else remote
      Except.ok (fs5, remote1)

/-- Outcome of the readiness-poll loop.  `mounted` is the `return True`
path, `processTerminated` is `pytest.fail("file system process
terminated prematurely")`, `mountTimeout` is `pytest.fail("mountpoint
failed to come up")`, and `running` means the loop has not decided
within the observed number of iterations. -/
inductive WaitOutcome
  | mounted
  | processTerminated
  | mountTimeout
  | running
  deriving DecidableEq, Repr

/-- `NydusDaemon._wait_for_mount` (rafs.py:587-596), observed for a
bounded number of loop iterations (`fuel`).  `test_fn i` is the value
of the pluggable readiness probe on its i-th call, `alive i` is whether
`self.p.poll()` is `None` on its i-th call.  Note the loop body
executes `elapsed -= 1` — a decrement — before sleeping. -/
def waitForMount (test_fn : Nat → Bool) (alive : Nat → Bool) : Nat → Int → Nat → WaitOutcome
  | 0, _, _ => WaitOutcome.running
  | fuel + 1, elapsed, iter =>
    if elapsed < 300 then
      if test_fn iter then WaitOutcome.mounted
      else if alive iter then waitForMount test_fn alive fuel (elapsed - 1) (iter + 1)
      else WaitOutcome.processTerminated
    else WaitOutcome.mountTimeout

/-- The wait phase of `mount()` / `wait_mount()`: `_wait_for_mount`
starts with `elapsed = 0` and the probe's first call. -/
def mountWait (test_fn : Nat → Bool) (alive : Nat → Bool) (fuel : Nat) : WaitOutcome :=
  waitForMount test_fn alive fuel 0 0

/-- The anchor fields `set_rafs_backend` reads for the selected
variant (its required fields): registry host and auth (plus the
namespace when a repo is supplied), the object-store endpoint,
access-key pair and bucket, the proxy URL, the localfs work directory
(or the supplied image's backing blob). -/
def confRequiredMissing (a : NydusAnchor) (bt : Backend) (kw : RafsKwargs) : Bool :=
  match bt with
  | Backend.registry =>
    a.registry_url.isNone || a.registry_auth.isNone ||
      (kw.repo.isSome && a.registry_namespace.isNone)
  | Backend.oss =>
    a.oss_endpoint.isNone || a.oss_ak_id.isNone || a.oss_ak_secret.isNone ||
      a.oss_bucket.isNone
  | Backend.backend_proxy => a.backend_proxy_url.isNone
  | Backend.localfs =>
    match kw.image with
    | some img => img.isNone
    | none => a.localfs_workdir.isNone

/-- The anchor fields `RafsImage.set_backend` reads for the selected
variant. -/
def imageRequiredMissing (a : NydusAnchor) (bt : Backend) : Bool :=
  match bt with
  | Backend.localfs => a.localfs_workdir.isNone
  | Backend.oss =>
    a.ossutil_bin.isNone || a.oss_endpoint.isNone || a.oss_bucket.isNone ||
      a.oss_ak_id.isNone || a.oss_ak_secret.isNone
  | _ => false

/-- A fully-populated concrete anchor (format major version 6). -/
def anchor0 : NydusAnchor :=
  { registry_url := some "localhost:5000"
    registry_auth := some ""
    registry_namespace := some "testns"
    oss_endpoint := some "oss.example.com"
    oss_ak_id := some "akid"
    oss_ak_secret := some "aksecret"
    oss_bucket := some "bucket"
    ossutil_bin := some "ossutil"
    backend_proxy_url := some "127.0.0.1:8000"
    localfs_workdir := some "/tmp/localfs"
    blobcache_dir := "/tmp/blobcache"
    backend_proxy_blobs_dir := "/tmp/proxy/blobs"
    image_bin := "nydus-image"
    log_level := "info"
    workspace := "/tmp/ws"
    mountpoint := "/mnt/rafs"
    fs_version := 6 }

/-- The same anchor with the object-store endpoint absent. -/
def anchorNoOss : NydusAnchor := { anchor0 with oss_endpoint := none }

/-- A fresh `RafsConf` over `anchor0`. -/
def conf0 : RafsConfState := rafsConfInit anchor0 none

/-- A fresh `RafsConf` over the anchor missing its oss endpoint. -/
def confNoOss : RafsConfState := rafsConfInit anchorNoOss none

/-- `conf0` after the caller enabled a custom compressed blobcache. -/
def confCustomCache : RafsConfState :=
  enableRafsBlobcache conf0 true (some "/custom/cache")

/-- An empty configuration file. -/
def file0 : ConfFile := ConfFile.mk [] 0

/-- A fresh `RafsImage` over `anchor0`. -/
def image0 : RafsImageState :=
  rafsImageInit anchor0 "/src/app" "bs.boot" "blob.bin" none true "/tmp/ws/blobtmp" "/cwd"

/-- A fresh `RafsImage` over the anchor missing its oss endpoint. -/
def imageNoOss : RafsImageState :=
  rafsImageInit anchorNoOss "/src/app" "bs.boot" "blob.bin" none true "/tmp/ws/blobtmp" "/cwd"

/-- `image0` after `set_backend(BACKEND_PROXY)` (a branch that cannot
fail). -/
def imageProxy : RafsImageState :=
  match (setBackend image0 Backend.backend_proxy {}).1 with
  | Except.ok s => s
  | Except.error _ => image0

/-- A successful build environment: zero exit status, bootstrap
present, a well-formed output document with two blob descriptors. -/
def buildEnvGood : BuildEnv :=
  { clear_from_oss := true
    oss_uploader := "none"
    compressor := none
    parent_image := none
    prefetch_policy := none
    from_stargz := false
    fs_version_arg := none
    disable_check := false
    chunk_size := none
    image_bin := none
    returncode := 0
    bootstrapPresent := true
    outputDoc := some (JVal.obj [("blobs", JVal.arr [JVal.str "blob-a", JVal.str "blob-b"])]) }

/-- The same environment with a failing builder exit status. -/
def buildEnvFail : BuildEnv := { buildEnvGood with returncode := 1 }

/-- The image object after a successful `create_image` run. -/
def imageBuilt : RafsImageState := (createImage imageProxy buildEnvGood).state

/-- Filesystem contents right after the successful build: the
bootstrap at its absolute path and the intermediate blob file. -/
def fsAfterBuild : List String := ["/cwd/bs.boot", "/tmp/ws/blobtmp"]

/-- With a probe that never observes the mount and a live process, the
loop never decides: since `elapsed` only decreases, the guard
`elapsed < 300` stays true forever. -/
theorem waitForMount_run_forever (t a : Nat → Bool)
    (ht : ∀ i, t i = false) (ha : ∀ i, a i = true) :
    ∀ (fuel : Nat) (elapsed : Int) (iter : Nat), elapsed < 300 →
      waitForMount t a fuel elapsed iter = WaitOutcome.running := by
  intro fuel
  induction fuel with
  | zero => intro elapsed iter h; rfl
  | succ m ih =>
    intro elapsed iter h
    simp only [waitForMount, h, if_true, ht iter, ha iter, if_pos, Bool.false_eq_true,
      if_false]
    exact ih (elapsed - 1) (iter + 1) (by omega)

/-- When the probe first returns true on call `n` (and the process is
alive until then), the loop returns `mounted` on exactly that
iteration: with fuel `n + 1` it decides `mounted`, with fuel `n` it has
not decided yet. -/
theorem waitForMount_first_true (t a : Nat → Bool) :
    ∀ (n iter : Nat) (elapsed : Int), elapsed < 300 →
      (∀ i, i < n → t (iter + i) = false) →
      t (iter + n) = true →
      (∀ i, i < n → a (iter + i) = true) →
      waitForMount t a (n + 1) elapsed iter = WaitOutcome.mounted ∧
      waitForMount t a n elapsed iter = WaitOutcome.running := by
  intro n
  induction n with
  | zero =>
    intro iter elapsed h hf htr ha
    refine ⟨?_, rfl⟩
    have h0 : t iter = true := by simpa using htr
    simp [waitForMount, h, h0]
  | succ m ih =>
    intro iter elapsed h hf htr ha
    have h0 : t iter = false := by simpa using hf 0 (Nat.succ_pos m)
    have ha0 : a iter = true := by simpa using ha 0 (Nat.succ_pos m)
    have hf' : ∀ i, i < m → t (iter + 1 + i) = false := by
      intro i hi
      have e : iter + 1 + i = iter + (i + 1) := by omega
      rw [e]; exact hf (i + 1) (by omega)
    have ha' : ∀ i, i < m → a (iter + 1 + i) = true := by
      intro i hi
      have e : iter + 1 + i = iter + (i + 1) := by omega
      rw [e]; exact ha (i + 1) (by omega)
    have htr' : t (iter + 1 + m) = true := by
      have e : iter + 1 + m = iter + (m + 1) := by omega
      rw [e]; exact htr
    have hrec := ih (iter + 1) (elapsed - 1) (by omega) hf' htr' ha'
    constructor
    · simp only [waitForMount, h, if_true, h0, Bool.false_eq_true, if_false, ha0]
      exact hrec.1
    · simp only [waitForMount, h, if_true, h0, Bool.false_eq_true, if_false, ha0]
      exact hrec.2

/-- When the probe never observes the mount through call `n` and the
process is found dead by call `n`, the loop decides
`processTerminated`, whatever fuel remains. -/
theorem waitForMount_dead (t a : Nat → Bool) :
    ∀ (n fuel iter : Nat) (elapsed : Int), elapsed < 300 →
      (∀ i, i ≤ n → t (iter + i) = false) →
      a (iter + n) = false →
      n < fuel →
      waitForMount t a fuel elapsed iter = WaitOutcome.processTerminated := by
  intro n
  induction n with
  | zero =>
    intro fuel iter elapsed h hf ha hfu
    match fuel, hfu with
    | m + 1, _ =>
      have h0 : t iter = false := by simpa using hf 0 (Nat.le_refl 0)
      have ha0 : a iter = false := by simpa using ha
      simp [waitForMount, h, h0, ha0]
  | succ m ih =>
    intro fuel iter elapsed h hf ha hfu
    match fuel, hfu with
    | k + 1, hfu =>
      have h0 : t iter = false := by simpa using hf 0 (Nat.zero_le _)
      by_cases ha0 : a iter = true
      · have hf' : ∀ i, i ≤ m → t (iter + 1 + i) = false := by
          intro i hi
          have e : iter + 1 + i = iter + (i + 1) := by omega
          rw [e]; exact hf (i + 1) (by omega)
        have ha' : a (iter + 1 + m) = false := by
          have e : iter + 1 + m = iter + (m + 1) := by omega
          rw [e]; exact ha
        simp only [waitForMount, h, if_true, h0, Bool.false_eq_true, if_false, ha0]
        exact ih k (iter + 1) (elapsed - 1) (by omega) hf' ha' (by omega)
      · have ha1 : a iter = false := by
          cases hb : a iter
          · rfl
          · exact absurd hb ha0
        simp [waitForMount, h, h0, ha1]

/-- C1: for every probe, `mount()`'s readiness wait returns `Mounted`
on exactly the poll iteration where the probe first returns true; but
with a probe that never returns true and a live daemon process the
loop never decides — for every observed number of iterations it is
still running, so it never reaches the "mountpoint failed to come up"
timeout failure that the 300-unit budget is supposed to bound
(rafs.py:594 decrements `elapsed`, so the guard `elapsed < 300` never
becomes false). -/
theorem C1_mount_readiness_polling (t a : Nat → Bool) (n : Nat)
    (h1 : ∀ i, i < n → t i = false) (h2 : t n = true) (h3 : ∀ i, i < n → a i = true) :
    (mountWait t a (n + 1) = WaitOutcome.mounted ∧ mountWait t a n = WaitOutcome.running) ∧
    ∀ fuel, mountWait (fun _ => false) (fun _ => true) fuel = WaitOutcome.running := by
  constructor
  · have h := waitForMount_first_true t a n 0 0 (by norm_num)
      (by intro i hi; simpa using h1 i hi) (by simpa using h2)
      (by intro i hi; simpa using h3 i hi)
    exact ⟨h.1, h.2⟩
  · intro fuel
    exact waitForMount_run_forever _ _ (fun _ => rfl) (fun _ => rfl) fuel 0 0 (by norm_num)

/-- Witness for C1 at a concrete probe that first returns true on its
third call. -/
theorem C1_mount_readiness_polling_witness :
    (mountWait (fun i => decide (i = 2)) (fun _ => true) 3 = WaitOutcome.mounted ∧
     mountWait (fun i => decide (i = 2)) (fun _ => true) 2 = WaitOutcome.running) ∧
    mountWait (fun _ => false) (fun _ => true) 7 = WaitOutcome.running := by
  have h := C1_mount_readiness_polling (fun i => decide (i = 2)) (fun _ => true) 2
    (by intro i hi; interval_cases i <;> rfl) (by rfl) (fun i hi => rfl)
  exact ⟨h.1, h.2 7⟩

/-- C4: if the daemon process is found dead before the probe ever
observes the mountpoint, the wait fails with the fatal "process
terminated prematurely" outcome (`ProcessTerminatedError`), not the
timeout outcome (`MountTimeoutError`), even for arbitrarily small
iteration counts. -/
theorem C4_premature_exit (t a : Nat → Bool) (n fuel : Nat)
    (h1 : ∀ i, i ≤ n → t i = false) (h2 : a n = false) (hf : n < fuel) :
    mountWait t a fuel = WaitOutcome.processTerminated ∧
    mountWait t a fuel ≠ WaitOutcome.mountTimeout := by
  have h := waitForMount_dead t a n fuel 0 0 (by norm_num)
    (by intro i hi; simpa using h1 i hi) (by simpa using h2) hf
  refine ⟨h, ?_⟩
  rw [mountWait, h]
  simp

/-- Witness for C4: a process stub that is already dead on the first
poll fails with `processTerminated` immediately. -/
theorem C4_premature_exit_witness :
    mountWait (fun _ => false) (fun _ => false) 1 = WaitOutcome.processTerminated ∧
    mountWait (fun _ => false) (fun _ => false) 1 ≠ WaitOutcome.mountTimeout :=
  C4_premature_exit (fun _ => false) (fun _ => false) 0 1 (fun _ _ => rfl) rfl (by norm_num)

/-- The v6 cache upgrade step does not change the anchor, so applying
it twice equals applying it once. -/
theorem dumpUpgrade_idem (c : RafsConfState) :
    dumpUpgrade (dumpUpgrade c) = dumpUpgrade c := by
  by_cases h : c.anchor.fs_version = 6
  · simp [dumpUpgrade, h, enableRafsBlobcache]
  · simp [dumpUpgrade, h]

/-- C6: serializing twice without intervening mutation persists
byte-identical contents, and each serialization's persisted contents
are exactly the serialized document — the file is truncated and
rewritten from position zero, never appended to. -/
theorem C6_serialize_idempotent_overwrite (c : RafsConfState) (f : ConfFile) :
    ((dumpRafsConf (dumpRafsConf c f).1 (dumpRafsConf c f).2).2).contents =
      ((dumpRafsConf c f).2).contents ∧
    ((dumpRafsConf c f).2).contents = (serializeConf (dumpRafsConf c f).1).data := by
  constructor
  · show (serializeConf (dumpUpgrade (dumpUpgrade c))).data =
      (serializeConf (dumpUpgrade c)).data
    rw [dumpUpgrade_idem]
  · rfl

/-- C5: a configuration with format major version 6 and no explicit
cache serializes (without error) to a document whose cache type is the
disk-backed default "blobcache". -/
theorem C5_v6_forces_blobcache (c : RafsConfState) (f : ConfFile)
    (h6 : c.anchor.fs_version = 6) (_hc : c.device.cache = none) :
    docCacheType (confToJVal (dumpRafsConf c f).1) = Except.ok (JVal.str "blobcache") ∧
    docCacheType (confToJVal (dumpRafsConf c f).1) ≠ Except.ok (JVal.str "none") ∧
    ((dumpRafsConf c f).2).contents = (serializeConf (dumpRafsConf c f).1).data := by
  refine ⟨?_, ?_, rfl⟩ <;>
    simp [dumpRafsConf, dumpUpgrade, h6, enableRafsBlobcache, confToJVal, docCacheType,
      jGet, optField, cacheToJVal, List.lookup]

/-- C10: with format major version 6, every serialization overwrites
`device.cache` with the default disk-backed cache (default work
directory, compression off) — a caller-supplied cache does not survive
— while every other configured field is unchanged. -/
theorem C10_v6_dump_overwrites_cache (c : RafsConfState) (f : ConfFile)
    (h6 : c.anchor.fs_version = 6) :
    ((dumpRafsConf c f).1).device.cache =
      some (CacheConf.mk "blobcache" c.anchor.blobcache_dir false) ∧
    ((dumpRafsConf c f).1).device.backend = c.device.backend ∧
    ((dumpRafsConf c f).1).mode = c.mode ∧
    ((dumpRafsConf c f).1).iostats_files = c.iostats_files ∧
    ((dumpRafsConf c f).1).latest_read_files = c.latest_read_files ∧
    ((dumpRafsConf c f).1).access_pattern = c.access_pattern ∧
    ((dumpRafsConf c f).1).fs_prefetch = c.fs_prefetch ∧
    ((dumpRafsConf c f).1).digest_validate = c.digest_validate ∧
    ((dumpRafsConf c f).1).amplify_io = c.amplify_io ∧
    ((dumpRafsConf c f).1).enable_xattr = c.enable_xattr ∧
    ((dumpRafsConf c f).1).anchor = c.anchor := by
  simp [dumpRafsConf, dumpUpgrade, h6, enableRafsBlobcache]

/-- Witness for C5 at the concrete fresh v6 configuration. -/
theorem C5_v6_forces_blobcache_witness :
    docCacheType (confToJVal (dumpRafsConf conf0 file0).1) = Except.ok (JVal.str "blobcache") ∧
    docCacheType (confToJVal (dumpRafsConf conf0 file0).1) ≠ Except.ok (JVal.str "none") ∧
    ((dumpRafsConf conf0 file0).2).contents = (serializeConf (dumpRafsConf conf0 file0).1).data :=
  C5_v6_forces_blobcache conf0 file0 rfl rfl

/-- Witness for C10: a caller-supplied compressed custom-work-dir
cache is replaced by the default blobcache at dump time. -/
theorem C10_v6_dump_overwrites_cache_witness :
    ((dumpRafsConf confCustomCache file0).1).device.cache =
      some (CacheConf.mk "blobcache" "/tmp/blobcache" false) ∧
    ((dumpRafsConf confCustomCache file0).1).device.backend = confCustomCache.device.backend ∧
    ((dumpRafsConf confCustomCache file0).1).mode = confCustomCache.mode := by
  have h := C10_v6_dump_overwrites_cache confCustomCache file0 rfl
  exact ⟨h.1, h.2.1, h.2.2.1⟩

/-- C9: configuring the `BACKEND_PROXY` variant produces a backend
whose type is the Registry variant "registry" (never the distinct
"backend_proxy" value) with scheme http, repo "nydus" and host set to
the proxy's URL, and the serialized document's backend type is
"registry". -/
theorem C9_proxy_normalized_to_registry (c : RafsConfState) (kw : RafsKwargs) (u : String)
    (h : c.anchor.backend_proxy_url = some u) :
    (setRafsBackend c Backend.backend_proxy kw).map
      (fun c2 => c2.device.backend.type) = Except.ok "registry" ∧
    (setRafsBackend c Backend.backend_proxy kw).map
      (fun c2 => c2.device.backend.type) ≠ Except.ok "backend_proxy" ∧
    (setRafsBackend c Backend.backend_proxy kw).map
      (fun c2 => c2.device.backend.config.scheme) = Except.ok (some "http") ∧
    (setRafsBackend c Backend.backend_proxy kw).map
      (fun c2 => c2.device.backend.config.repo) = Except.ok (some "nydus") ∧
    (setRafsBackend c Backend.backend_proxy kw).map
      (fun c2 => c2.device.backend.config.host) = Except.ok (some u) ∧
    (setRafsBackend c Backend.backend_proxy kw).map
      (fun c2 => docBackendType (confToJVal c2)) = Except.ok (Except.ok (JVal.str "registry")) := by
  simp [setRafsBackend, setBackendTypeField, updCfg, h, Except.map, docBackendType,
    confToJVal, jGet, optField, List.lookup]

/-- Witness for C9 at the concrete anchor. -/
theorem C9_proxy_normalized_to_registry_witness :
    (setRafsBackend conf0 Backend.backend_proxy {}).map
      (fun c2 => c2.device.backend.type) = Except.ok "registry" ∧
    (setRafsBackend conf0 Backend.backend_proxy {}).map
      (fun c2 => c2.device.backend.type) ≠ Except.ok "backend_proxy" ∧
    (setRafsBackend conf0 Backend.backend_proxy {}).map
      (fun c2 => c2.device.backend.config.scheme) = Except.ok (some "http") ∧
    (setRafsBackend conf0 Backend.backend_proxy {}).map
      (fun c2 => c2.device.backend.config.repo) = Except.ok (some "nydus") ∧
    (setRafsBackend conf0 Backend.backend_proxy {}).map
      (fun c2 => c2.device.backend.config.host) = Except.ok (some "127.0.0.1:8000") ∧
    (setRafsBackend conf0 Backend.backend_proxy {}).map
      (fun c2 => docBackendType (confToJVal c2)) = Except.ok (Except.ok (JVal.str "registry")) :=
  C9_proxy_normalized_to_registry conf0 {} "127.0.0.1:8000" rfl

/-- C3: when a required field for the selected variant is absent, both
configuration entry points fail with the configuration-time error
(`AttributeError`, the spec's `ConfigError`) — and backend
configuration never launches a process. -/
theorem C3_missing_field_fails_before_launch (c : RafsConfState) (bt : Backend)
    (kw : RafsKwargs) (s : RafsImageState) (kw2 : ImageKwargs) :
    (confRequiredMissing c.anchor bt kw = true →
      setRafsBackend c bt kw = Except.error PyErr.attributeError) ∧
    (imageRequiredMissing s.anchor bt = true →
      (setBackend s bt kw2).1 = Except.error PyErr.attributeError) ∧
    (∀ prog, Effect.spawn prog ∉ (setBackend s bt kw2).2) := by
  refine ⟨?_, ?_, ?_⟩
  · intro h
    cases bt with
    | registry =>
      cases hr : kw.repo <;> cases hn : c.anchor.registry_namespace <;>
        cases hu : c.anchor.registry_url <;> cases ha : c.anchor.registry_auth <;>
        simp_all [setRafsBackend, confRequiredMissing, updCfg, setBackendTypeField]
    | oss =>
      cases hp : kw.pfx <;> cases he : c.anchor.oss_endpoint <;>
        cases hi : c.anchor.oss_ak_id <;> cases hs2 : c.anchor.oss_ak_secret <;>
        cases hb : c.anchor.oss_bucket <;>
        simp_all [setRafsBackend, confRequiredMissing, updCfg, setBackendTypeField]
    | backend_proxy =>
      cases hu : c.anchor.backend_proxy_url <;>
        simp_all [setRafsBackend, confRequiredMissing, updCfg, setBackendTypeField]
    | localfs =>
      cases hi : kw.image with
      | none =>
        cases hw : c.anchor.localfs_workdir <;>
          simp_all [setRafsBackend, confRequiredMissing, updCfg, setBackendTypeField]
      | some img =>
        cases img <;>
          simp_all [setRafsBackend, confRequiredMissing, updCfg, setBackendTypeField]
  · intro h
    cases bt with
    | registry => simp [imageRequiredMissing] at h
    | backend_proxy => simp [imageRequiredMissing] at h
    | localfs =>
      cases hw : s.anchor.localfs_workdir <;>
        simp_all [setBackend, imageRequiredMissing]
    | oss =>
      cases h1 : s.anchor.ossutil_bin <;> cases h2 : s.anchor.oss_endpoint <;>
        cases h3 : s.anchor.oss_bucket <;> cases h4 : s.anchor.oss_ak_id <;>
        cases h5 : s.anchor.oss_ak_secret <;>
        simp_all [setBackend, imageRequiredMissing, setParam]
  · intro prog
    cases bt with
    | registry => simp [setBackend]
    | backend_proxy => simp [setBackend]
    | localfs =>
      cases hw : s.anchor.localfs_workdir <;> simp [setBackend, hw]
    | oss =>
      cases h1 : s.anchor.ossutil_bin <;> cases h2 : s.anchor.oss_endpoint <;>
        cases h3 : s.anchor.oss_bucket <;> cases h4 : s.anchor.oss_ak_id <;>
        cases h5 : s.anchor.oss_ak_secret <;>
        simp [setBackend, setParam, h1, h2, h3, h4, h5]

/-- Witness for C3: an anchor missing the object-store endpoint makes
both configuration entry points fail, and configuration performs no
process launch. -/
theorem C3_missing_field_fails_before_launch_witness :
    setRafsBackend confNoOss Backend.oss {} = Except.error PyErr.attributeError ∧
    (setBackend imageNoOss Backend.oss {}).1 = Except.error PyErr.attributeError ∧
    Effect.spawn "nydus-image" ∉ (setBackend imageNoOss Backend.oss {}).2 := by
  have h := C3_missing_field_fails_before_launch confNoOss Backend.oss {} imageNoOss {}
  exact ⟨h.1 rfl, h.2.1 rfl, h.2.2 "nydus-image"⟩

/-- The parameter-recording segment of `create_image` only touches the
command line, not the lifecycle fields. -/
theorem ciParams_created (s : RafsImageState) (env : BuildEnv) :
    (ciParams s env).created = s.created := by
  unfold ciParams
  dsimp only [setParam, setFlag]
  repeat' split
  all_goals rfl

/-- The backend persistence step never changes `created`. -/
theorem ciBackendFinish_created (s : RafsImageState) (e : Effect) (b : JVal) :
    (ciBackendFinish s e b).state.created = s.created := by
  unfold ciBackendFinish
  repeat' split
  all_goals rfl

/-- The backend persistence step never changes `blob_id`. -/
theorem ciBackendFinish_blob_id (s : RafsImageState) (e : Effect) (b : JVal) :
    (ciBackendFinish s e b).state.blob_id = s.blob_id := by
  unfold ciBackendFinish
  repeat' split
  all_goals rfl

/-- C8: `create_image` raises the build-phase assertion
(`BuildError`) whenever the builder exit status is non-zero or the
expected bootstrap file is absent afterwards, and the artifact is
marked created exactly when both checks pass. -/
theorem C8_build_error_checks (s : RafsImageState) (env : BuildEnv)
    (hc : s.created = false)
    (hu : env.oss_uploader = "util" ∨ env.oss_uploader = "builder" ∨ env.oss_uploader = "none") :
    ((createImage s env).state.created = true ↔
      env.returncode = 0 ∧ env.bootstrapPresent = true) ∧
    ((env.returncode ≠ 0 ∨ env.bootstrapPresent = false) →
      (createImage s env).err = some PyErr.assertionError) := by
  unfold createImage
  rw [if_pos hu]
  by_cases hr : env.returncode = 0
  · rw [if_pos hr]
    cases hb : env.bootstrapPresent with
    | false =>
      constructor
      · simp [ciParams_created, hc]
      · intro hcond
        simp
    | true =>
      constructor
      · cases hp : jloadBlobsLast env.outputDoc with
        | error e => simp [hp, hr]
        | ok bid => simp [hp, hr, ciBackendFinish_created]
      · intro hcond
        rcases hcond with h | h
        · exact absurd hr h
        · cases h
  · rw [if_neg hr]
    constructor
    · simp [ciParams_created, hc, hr]
    · intro hcond
      simp

/-- Witness for C8: a non-zero builder exit status raises the
assertion and leaves the artifact unmarked. -/
theorem C8_build_error_checks_witness :
    (createImage imageProxy buildEnvFail).err = some PyErr.assertionError ∧
    ((createImage imageProxy buildEnvFail).state.created = true ↔
      buildEnvFail.returncode = 0 ∧ buildEnvFail.bootstrapPresent = true) := by
  have h := C8_build_error_checks imageProxy buildEnvFail rfl (Or.inr (Or.inr rfl))
  exact ⟨h.2 (Or.inl (by decide)), h.1⟩

/-- C7: after the exit-status and bootstrap checks pass, the blob
content identifier recorded on the artifact is the last element of the
"blobs" list of the builder's output document; a malformed document
raises `JSONDecodeError` and an empty blob list raises `IndexError`
(the spec's `BuildError`). -/
theorem C7_blob_id_from_builder_output (s : RafsImageState) (env : BuildEnv)
    (hu : env.oss_uploader = "util" ∨ env.oss_uploader = "builder" ∨ env.oss_uploader = "none")
    (hr : env.returncode = 0) (hb : env.bootstrapPresent = true) :
    (∀ doc bs b, env.outputDoc = some doc → jGet doc "blobs" = Except.ok (JVal.arr bs) →
      bs.getLast? = some b → (createImage s env).state.blob_id = some b) ∧
    (env.outputDoc = none → (createImage s env).err = some PyErr.jsonDecodeError) ∧
    (∀ doc, env.outputDoc = some doc → jGet doc "blobs" = Except.ok (JVal.arr []) →
      (createImage s env).err = some PyErr.indexError) := by
  unfold createImage
  rw [if_pos hu, if_pos hr]
  rw [hb]
  simp only [if_true]
  refine ⟨?_, ?_, ?_⟩
  · intro doc bs b hdoc hblobs hlast
    have hp : jloadBlobsLast env.outputDoc = Except.ok b := by
      simp [jloadBlobsLast, hdoc, hblobs, jLast, hlast]
    simp only [hp, ciBackendFinish_blob_id]
  · intro hdoc
    have hp : jloadBlobsLast env.outputDoc = Except.error PyErr.jsonDecodeError := by
      simp [jloadBlobsLast, hdoc]
    simp only [hp]
  · intro doc hdoc hblobs
    have hp : jloadBlobsLast env.outputDoc = Except.error PyErr.indexError := by
      simp [jloadBlobsLast, hdoc, hblobs, jLast]
    simp only [hp]

/-- Witness for C7: the concrete successful build records the last
blob descriptor "blob-b". -/
theorem C7_blob_id_from_builder_output_witness :
    (createImage imageProxy buildEnvGood).state.blob_id = some (JVal.str "blob-b") :=
  (C7_blob_id_from_builder_output imageProxy buildEnvGood (Or.inr (Or.inr rfl)) rfl rfl).1
    (JVal.obj [("blobs", JVal.arr [JVal.str "blob-a", JVal.str "blob-b"])])
    [JVal.str "blob-a", JVal.str "blob-b"] (JVal.str "blob-b") rfl rfl rfl

/-- C2 fails on the code: after a successful `create_image`, the first
`clean_up` removes the bootstrap and blob files, and a second
`clean_up` raises `FileNotFoundError` from the unguarded
`os.unlink(self.bootstrap_path)` instead of being a no-op. -/
theorem C2_double_cleanup_raises :
    (createImage imageProxy buildEnvGood).err = none ∧
    imageBuilt.created = true ∧
    cleanUp imageBuilt fsAfterBuild [] = Except.ok ([], []) ∧
    cleanUp imageBuilt [] [] = Except.error PyErr.fileNotFoundError :=
  ⟨rfl, rfl, rfl, rfl⟩

end Nydus
